import Mathlib

/-!
# Verification development for `native/filestat.c`

A shallow embedding of the two JNI entry points of `filestat.c`
(`Java_se_soderstrom_linux_FileStat_doStat` and
`Java_se_soderstrom_linux_FileStat_doSymLink`) together with the helpers
`assignInt` and `assignLong`.

Modelling conventions.

* C integers are mathematical integers; every implicit conversion that the C
  source performs at a call site is written out (`toCInt`, `toCLong`).
  The ABI is LP64 Linux: `int` and `jint` are 32-bit, `long int` and `jlong`
  are 64-bit two's complement.
* The JNI environment, the class `cls` and the operating system are an explicit
  `World`: what `GetStringUTFChars`, `stat`, `lstat` and `GetFieldID` answer.
* The Java object `obj` is a map from field names to the integer held by the
  field; the heap also carries the trace of external calls made so far, so
  that statements about which calls are issued can be made.
-/

namespace FileStat

/-! ## C integer conversions -/

/-- Conversion of an integer to the 32-bit signed type `int` (two's complement wrap). -/
def toCInt (v : Int) : Int := (v + 2 ^ 31) % 2 ^ 32 - 2 ^ 31

/-- Conversion of an integer to the 64-bit signed type `long int` (two's complement wrap). -/
def toCLong (v : Int) : Int := (v + 2 ^ 63) % 2 ^ 64 - 2 ^ 63

/-! ## Constants of the source and of `<sys/stat.h>`

`FIELD_LONG` and `FIELD_INT` are defined in the source. The file-type mask and
the seven file-type constants are those of `<sys/stat.h>` on Linux, and each
test `S_ISxxx(m)` is `(((m) & S_IFMT) == S_IFxxx)`. -/

def FIELD_LONG : String := "J"
def FIELD_INT : String := "I"

def S_IFMT : Nat := 0o170000
def S_IFSOCK : Nat := 0o140000
def S_IFLNK : Nat := 0o120000
def S_IFREG : Nat := 0o100000
def S_IFBLK : Nat := 0o060000
def S_IFDIR : Nat := 0o040000
def S_IFCHR : Nat := 0o020000
def S_IFIFO : Nat := 0o010000

/-- The test `S_ISREG(m)`, that is `(((m) & S_IFMT) == S_IFREG)`, an `int` that is 0 or 1. -/
def S_ISREG (m : Nat) : Int := if m &&& S_IFMT = S_IFREG then 1 else 0
def S_ISDIR (m : Nat) : Int := if m &&& S_IFMT = S_IFDIR then 1 else 0
def S_ISCHR (m : Nat) : Int := if m &&& S_IFMT = S_IFCHR then 1 else 0
def S_ISBLK (m : Nat) : Int := if m &&& S_IFMT = S_IFBLK then 1 else 0
def S_ISFIFO (m : Nat) : Int := if m &&& S_IFMT = S_IFIFO then 1 else 0
def S_ISLNK (m : Nat) : Int := if m &&& S_IFMT = S_IFLNK then 1 else 0
def S_ISSOCK (m : Nat) : Int := if m &&& S_IFMT = S_IFSOCK then 1 else 0

/-! ## Data model -/

/-- The C type `struct timespec`: both members have type `long`. -/
structure Timespec where
  tv_sec : Int
  tv_nsec : Int
  deriving DecidableEq, Repr, Inhabited

/-- The members of `struct stat` that the source reads, as `<sys/stat.h>`
declares them. Unsigned members (`st_dev`, `st_ino`, `st_mode`, `st_nlink`,
`st_uid`, `st_gid`, `st_rdev`) are naturals, signed members (`st_size`,
`st_blksize`, `st_blocks` and the timestamps) are integers. -/
structure Stat where
  st_dev : Nat
  st_ino : Nat
  st_mode : Nat
  st_nlink : Nat
  st_uid : Nat
  st_gid : Nat
  st_rdev : Nat
  st_size : Int
  st_blksize : Int
  st_blocks : Int
  st_atim : Timespec
  st_mtim : Timespec
  st_ctim : Timespec
  deriving DecidableEq, Repr, Inhabited

/-- The value ranges of the member types of `struct stat` on LP64 Linux:
`unsigned long` for `st_dev`, `st_ino`, `st_nlink`, `st_rdev`; `unsigned int`
for `st_mode`, `st_uid`, `st_gid`; `long` for the rest. -/
def Stat.InRange (b : Stat) : Prop :=
  b.st_dev < 2 ^ 64 ∧ b.st_ino < 2 ^ 64 ∧ b.st_mode < 2 ^ 32 ∧ b.st_nlink < 2 ^ 64 ∧
  b.st_uid < 2 ^ 32 ∧ b.st_gid < 2 ^ 32 ∧ b.st_rdev < 2 ^ 64 ∧
  (-2 ^ 63 ≤ b.st_size ∧ b.st_size < 2 ^ 63) ∧
  (-2 ^ 63 ≤ b.st_blksize ∧ b.st_blksize < 2 ^ 63) ∧
  (-2 ^ 63 ≤ b.st_blocks ∧ b.st_blocks < 2 ^ 63) ∧
  (-2 ^ 63 ≤ b.st_atim.tv_sec ∧ b.st_atim.tv_sec < 2 ^ 63) ∧
  (-2 ^ 63 ≤ b.st_atim.tv_nsec ∧ b.st_atim.tv_nsec < 2 ^ 63) ∧
  (-2 ^ 63 ≤ b.st_mtim.tv_sec ∧ b.st_mtim.tv_sec < 2 ^ 63) ∧
  (-2 ^ 63 ≤ b.st_mtim.tv_nsec ∧ b.st_mtim.tv_nsec < 2 ^ 63) ∧
  (-2 ^ 63 ≤ b.st_ctim.tv_sec ∧ b.st_ctim.tv_sec < 2 ^ 63) ∧
  (-2 ^ 63 ≤ b.st_ctim.tv_nsec ∧ b.st_ctim.tv_nsec < 2 ^ 63)

instance (b : Stat) : Decidable b.InRange := by
  unfold Stat.InRange; infer_instance

/-- What a call of `stat` or `lstat` leaves behind: its return value, the value
of `errno` afterwards, and the contents of the buffer. The source reads `errno`
after `ReleaseStringUTFChars`; that JNI call is taken to leave `errno` as the
system call set it. -/
structure SysResult where
  ret : Int
  errno : Int
  buf : Stat
  deriving DecidableEq, Repr, Inhabited

/-- The surroundings of a call: the JNI environment, the class `cls` and the
operating system.
* `getStringUTFChars path` is the C string for the Java string, `none` for `NULL`;
* `stat` and `lstat` are the two system calls;
* `getFieldID name sig` tells whether `cls` has an instance field of that name
  and signature (`GetFieldID` returns `NULL` exactly when it has not). -/
structure World where
  getStringUTFChars : String → Option String
  stat : String → SysResult
  lstat : String → SysResult
  getFieldID : String → String → Bool

/-- The external calls that the source makes. -/
inductive Event where
  | getStringUTFChars (path : String)
  | releaseStringUTFChars (path : String)
  | stat (c_path : String)
  | lstat (c_path : String)
  | getFieldID (name sig : String)
  | setIntField (name : String) (value : Int)
  | setLongField (name : String) (value : Int)
  deriving DecidableEq, Repr

/-- The mutable state: the fields of the destination object `obj` and the
external calls made so far, oldest first. -/
structure Heap where
  obj : String → Int
  trace : List Event

/-- Record an external call. -/
def Heap.log (h : Heap) (e : Event) : Heap := { h with trace := h.trace ++ [e] }

/-- Store `value` in the field `name` of the object. -/
def Heap.store (h : Heap) (name : String) (value : Int) : Heap :=
  { h with obj := fun n => if n = name then value else h.obj n }

/-! ## The source functions -/

/-- The helper `assignInt`: look the field up with signature `I` and, if it
exists, store `value` in it. Returns 0 on success, -1 on failure. -/
def assignInt (w : World) (fieldName : String) (value : Int) (h : Heap) : Int × Heap :=
  let h1 := h.log (.getFieldID fieldName FIELD_INT)
  if w.getFieldID fieldName FIELD_INT = false then (-1, h1)
  else (0, (h1.log (.setIntField fieldName value)).store fieldName value)

/-- The helper `assignLong`: look the field up with signature `J` and, if it
exists, store `value` in it. Returns 0 on success, -1 on failure. -/
def assignLong (w : World) (fieldName : String) (value : Int) (h : Heap) : Int × Heap :=
  let h1 := h.log (.getFieldID fieldName FIELD_LONG)
  if w.getFieldID fieldName FIELD_LONG = false then (-1, h1)
  else (0, (h1.log (.setLongField fieldName value)).store fieldName value)

/-- The statement `if (assign…(…) < 0) return -2;` followed by the rest `k`
of the function body. -/
def orReturn (r : Int × Heap) (k : Heap → Int × Heap) : Int × Heap :=
  if r.1 < 0 then (-2, r.2) else k r.2

/-- Lines 72 to 104 of the source: transfer of `buf` to the instance fields. -/
def transfer (w : World) (buf : Stat) (h : Heap) : Int × Heap :=
  orReturn (assignLong w "device" (toCLong buf.st_dev) h) fun h =>
  orReturn (assignLong w "inode" (toCLong buf.st_ino) h) fun h =>
  orReturn (assignInt w "protection" (toCInt ((buf.st_mode &&& 0o7777 : Nat) : Int)) h) fun h =>
  orReturn (assignLong w "nlink" (toCLong buf.st_nlink) h) fun h =>
  orReturn (assignInt w "uid" (toCInt buf.st_uid) h) fun h =>
  orReturn (assignInt w "gid" (toCInt buf.st_gid) h) fun h =>
  orReturn (assignLong w "rdev" (toCLong buf.st_rdev) h) fun h =>
  orReturn (assignLong w "size" buf.st_size h) fun h =>
  orReturn (assignLong w "blksize" buf.st_blksize h) fun h =>
  orReturn (assignLong w "blocks" buf.st_blocks h) fun h =>
  orReturn (assignInt w "isRegInt" (S_ISREG buf.st_mode) h) fun h =>
  orReturn (assignInt w "isDirInt" (S_ISDIR buf.st_mode) h) fun h =>
  orReturn (assignInt w "isChrInt" (S_ISCHR buf.st_mode) h) fun h =>
  orReturn (assignInt w "isBlkInt" (S_ISBLK buf.st_mode) h) fun h =>
  orReturn (assignInt w "isFifoInt" (S_ISFIFO buf.st_mode) h) fun h =>
  orReturn (assignInt w "isLnkInt" (S_ISLNK buf.st_mode) h) fun h =>
  orReturn (assignInt w "isSockInt" (S_ISSOCK buf.st_mode) h) fun h =>
  orReturn (assignLong w "atimeSecs" buf.st_atim.tv_sec h) fun h =>
  orReturn (assignLong w "atimeNanos" buf.st_atim.tv_nsec h) fun h =>
  orReturn (assignLong w "mtimeSecs" buf.st_mtim.tv_sec h) fun h =>
  orReturn (assignLong w "mtimeNanos" buf.st_mtim.tv_nsec h) fun h =>
  orReturn (assignLong w "ctimeSecs" buf.st_ctim.tv_sec h) fun h =>
  orReturn (assignLong w "ctimeNanos" buf.st_ctim.tv_nsec h) fun h =>
  (0, h)

/-- The entry point `doStat`: the return code and the heap after the call.
The flag is tested as a C truth value, so every non-zero `lstatFlag` selects
`lstat`. -/
def Java_se_soderstrom_linux_FileStat_doStat
    (w : World) (path : String) (lstatFlag : Int) (h : Heap) : Int × Heap :=
  let h := h.log (.getStringUTFChars path)
  match w.getStringUTFChars path with
  | none => (-1, h)
  | some c_path =>
    let r := if lstatFlag ≠ 0 then w.lstat c_path else w.stat c_path
    let h := h.log (if lstatFlag ≠ 0 then .lstat c_path else .stat c_path)
    let h := h.log (.releaseStringUTFChars path)
    if r.ret < 0 then (r.errno, h)
    else transfer w r.buf h

/-- The entry point `doSymLink`: the return code and the heap after the call.
The sum `errno + 1000` is computed in the type `int`. -/
def Java_se_soderstrom_linux_FileStat_doSymLink
    (w : World) (path : String) (h : Heap) : Int × Heap :=
  let h := h.log (.getStringUTFChars path)
  match w.getStringUTFChars path with
  | none => (-1, h)
  | some c_path =>
    let r := w.lstat c_path
    let h := h.log (.lstat c_path)
    let h := h.log (.releaseStringUTFChars path)
    if r.ret < 0 then (toCInt (r.errno + 1000), h)
    else (if S_ISLNK r.buf.st_mode ≠ 0 then 1 else 0, h)


/-! ## Proof infrastructure -/

/-- One line of the transfer block: which helper is called, for which field, with which value. -/
structure Assign where
  isLong : Bool
  name : String
  value : Int
  deriving DecidableEq, Repr

/-- The JNI signature that the helper of this line asks for. -/
def Assign.sig (a : Assign) : String := if a.isLong then FIELD_LONG else FIELD_INT

/-- Run one line of the transfer block. -/
def Assign.run (w : World) (a : Assign) (h : Heap) : Int × Heap :=
  if a.isLong then assignLong w a.name a.value h else assignInt w a.name a.value h

/-- Whether the field lookup of this line succeeds. -/
def Assign.found (w : World) (a : Assign) : Bool := w.getFieldID a.name a.sig

/-- The 23 lines of the transfer block, in source order. -/
def assignments (buf : Stat) : List Assign :=
  [ ⟨true, "device", toCLong buf.st_dev⟩,
    ⟨true, "inode", toCLong buf.st_ino⟩,
    ⟨false, "protection", toCInt ((buf.st_mode &&& 0o7777 : Nat) : Int)⟩,
    ⟨true, "nlink", toCLong buf.st_nlink⟩,
    ⟨false, "uid", toCInt buf.st_uid⟩,
    ⟨false, "gid", toCInt buf.st_gid⟩,
    ⟨true, "rdev", toCLong buf.st_rdev⟩,
    ⟨true, "size", buf.st_size⟩,
    ⟨true, "blksize", buf.st_blksize⟩,
    ⟨true, "blocks", buf.st_blocks⟩,
    ⟨false, "isRegInt", S_ISREG buf.st_mode⟩,
    ⟨false, "isDirInt", S_ISDIR buf.st_mode⟩,
    ⟨false, "isChrInt", S_ISCHR buf.st_mode⟩,
    ⟨false, "isBlkInt", S_ISBLK buf.st_mode⟩,
    ⟨false, "isFifoInt", S_ISFIFO buf.st_mode⟩,
    ⟨false, "isLnkInt", S_ISLNK buf.st_mode⟩,
    ⟨false, "isSockInt", S_ISSOCK buf.st_mode⟩,
    ⟨true, "atimeSecs", buf.st_atim.tv_sec⟩,
    ⟨true, "atimeNanos", buf.st_atim.tv_nsec⟩,
    ⟨true, "mtimeSecs", buf.st_mtim.tv_sec⟩,
    ⟨true, "mtimeNanos", buf.st_mtim.tv_nsec⟩,
    ⟨true, "ctimeSecs", buf.st_ctim.tv_sec⟩,
    ⟨true, "ctimeNanos", buf.st_ctim.tv_nsec⟩ ]

/-- Run a list of lines, stopping with -2 at the first one whose helper fails. -/
def runAll (w : World) : List Assign → Heap → Int × Heap
  | [], h => (0, h)
  | a :: as, h => orReturn (a.run w h) (runAll w as)

/-- The object after the stores of a list of lines. -/
def writes : List Assign → (String → Int) → String → Int
  | [], o => o
  | a :: as, o => writes as (fun n => if n = a.name then a.value else o n)

/-- The lines that are executed to the end: those before the first failing lookup. -/
def executed (w : World) (as : List Assign) : List Assign := as.takeWhile (Assign.found w)

/-- The `stat` and `lstat` calls of a trace. -/
def queries (t : List Event) : List Event :=
  t.filter fun e => match e with
    | .stat _ => true
    | .lstat _ => true
    | _ => false

/-- The field lookups and field stores of a trace. -/
def fieldEvents (t : List Event) : List Event :=
  t.filter fun e => match e with
    | .getFieldID _ _ => true
    | .setIntField _ _ => true
    | .setLongField _ _ => true
    | _ => false

/-- The system call that `lstatFlag` selects, applied to the C path. -/
def sysCall (w : World) (lstatFlag : Int) (c_path : String) : SysResult :=
  if lstatFlag ≠ 0 then w.lstat c_path else w.stat c_path

/-- The names of the seven type-flag fields, in source order. -/
def typeFlagNames : List String :=
  ["isRegInt", "isDirInt", "isChrInt", "isBlkInt", "isFifoInt", "isLnkInt", "isSockInt"]

/-- The seven file-type constants that the type flags test for, in the same order. -/
def fileTypes : List Nat :=
  [S_IFREG, S_IFDIR, S_IFCHR, S_IFBLK, S_IFIFO, S_IFLNK, S_IFSOCK]

/-- How many of the named fields of the object are non-zero. -/
def nonZeroCount (o : String → Int) (names : List String) : Nat :=
  (names.filter fun n => decide (o n ≠ 0)).length

/-- The 23 destination fields with the JNI signature each is looked up with. -/
def destinationFields : List (String × String) :=
  [ ("device", "J"), ("inode", "J"), ("protection", "I"), ("nlink", "J"), ("uid", "I"),
    ("gid", "I"), ("rdev", "J"), ("size", "J"), ("blksize", "J"), ("blocks", "J"),
    ("isRegInt", "I"), ("isDirInt", "I"), ("isChrInt", "I"), ("isBlkInt", "I"),
    ("isFifoInt", "I"), ("isLnkInt", "I"), ("isSockInt", "I"),
    ("atimeSecs", "J"), ("atimeNanos", "J"), ("mtimeSecs", "J"), ("mtimeNanos", "J"),
    ("ctimeSecs", "J"), ("ctimeNanos", "J") ]

/-- The object is fully populated from `buf`: each of the 23 fields holds the
value that its line of the transfer block derives from `buf`. -/
def Populated (buf : Stat) (o : String → Int) : Prop :=
  ∀ a ∈ assignments buf, o a.name = a.value

/-! ## Concrete inputs -/

/-- A regular file as `stat` reports it. -/
def regularFile : Stat :=
  { st_dev := 2049, st_ino := 131, st_mode := 0o100644, st_nlink := 1, st_uid := 1000,
    st_gid := 1000, st_rdev := 0, st_size := 42, st_blksize := 4096, st_blocks := 8,
    st_atim := ⟨1700000000, 123456789⟩, st_mtim := ⟨1600000000, 987654321⟩,
    st_ctim := ⟨1650000000, 5⟩ }

/-- A world in which the path copy succeeds, both system calls succeed with
`buf`, and the class has every field asked for. -/
def worldOf (buf : Stat) : World :=
  { getStringUTFChars := fun p => some p
    stat := fun _ => ⟨0, 0, buf⟩
    lstat := fun _ => ⟨0, 0, buf⟩
    getFieldID := fun _ _ => true }

/-- A world in which the path does not exist: both system calls fail with `ENOENT` (2). -/
def worldNoEnt : World :=
  { getStringUTFChars := fun p => some p
    stat := fun _ => ⟨-1, 2, default⟩
    lstat := fun _ => ⟨-1, 2, default⟩
    getFieldID := fun _ _ => true }

/-- A world in which the copy of the path string fails. -/
def worldNoMem : World :=
  { getStringUTFChars := fun _ => none
    stat := fun _ => ⟨0, 0, regularFile⟩
    lstat := fun _ => ⟨0, 0, regularFile⟩
    getFieldID := fun _ _ => true }

/-- A world whose class has the field `device` and no other field. -/
def worldDeviceOnly : World :=
  { getStringUTFChars := fun p => some p
    stat := fun _ => ⟨0, 0, regularFile⟩
    lstat := fun _ => ⟨0, 0, regularFile⟩
    getFieldID := fun n s => n == "device" && s == "J" }

/-- A freshly constructed object (every field 0) and an empty trace. -/
def freshHeap : Heap := ⟨fun _ => 0, []⟩

/-- A file whose mode has no file-type bits set, as `stat` reports for an
anonymous inode reached through `/proc/self/fd`. -/
def untypedFile : Stat := { regularFile with st_mode := 0o600 }

instance (buf : Stat) (o : String → Int) : Decidable (Populated buf o) := by
  unfold Populated; infer_instance

/-- A symbolic link as `lstat` reports it. -/
def symbolicLink : Stat := { regularFile with st_mode := 0o120777, st_size := 11 }

/-- A world in which the path names a symbolic link to a regular file: `lstat`
reports the link, `stat` reports the file behind it. -/
def worldLink : World :=
  { getStringUTFChars := fun p => some p
    stat := fun _ => ⟨0, 0, regularFile⟩
    lstat := fun _ => ⟨0, 0, symbolicLink⟩
    getFieldID := fun _ _ => true }

/-- A world in which `lstat` fails with `EACCES` (13) and `stat` fails with `ENOENT` (2). -/
def worldDenied : World :=
  { getStringUTFChars := fun p => some p
    stat := fun _ => ⟨-1, 2, default⟩
    lstat := fun _ => ⟨-1, 13, default⟩
    getFieldID := fun _ _ => true }

/-- A setuid executable: mode 0104755. -/
def setuidFile : Stat := { regularFile with st_mode := 0o104755 }

/-- A file whose inode number has the top bit of the 64-bit `ino_t` set. -/
def highInodeFile : Stat := { regularFile with st_ino := 2 ^ 63 }

/-- A file owned by the user id 2^31 and the group id 4294967294. -/
def highOwnerFile : Stat := { regularFile with st_uid := 2 ^ 31, st_gid := 4294967294 }

/-! ## Lemmas on the transfer block -/

theorem transfer_eq_runAll (w : World) (buf : Stat) (h : Heap) :
    transfer w buf h = runAll w (assignments buf) h := rfl

theorem toCInt_of_range {v : Int} (h0 : -2 ^ 31 ≤ v) (h1 : v < 2 ^ 31) : toCInt v = v := by
  unfold toCInt; omega

theorem runAll_ret (w : World) (as : List Assign) (h : Heap) :
    (runAll w as h).1 = if as.all (Assign.found w) then 0 else -2 := by
  induction as generalizing h with
  | nil => simp [runAll]
  | cons a as ih =>
    cases hf : Assign.found w a <;> cases hl : a.isLong <;>
      simp_all [runAll, orReturn, Assign.run, Assign.found, Assign.sig, assignInt, assignLong]

theorem runAll_obj (w : World) (as : List Assign) (h : Heap) :
    (runAll w as h).2.obj = writes (executed w as) h.obj := by
  induction as generalizing h with
  | nil => simp [runAll, executed, writes]
  | cons a as ih =>
    cases hf : Assign.found w a <;> cases hl : a.isLong <;>
      simp_all [runAll, orReturn, Assign.run, Assign.found, Assign.sig, assignInt, assignLong,
        executed, writes, Heap.log, Heap.store, List.takeWhile]

theorem runAll_queries (w : World) (as : List Assign) (h : Heap) :
    queries (runAll w as h).2.trace = queries h.trace := by
  induction as generalizing h with
  | nil => simp [runAll]
  | cons a as ih =>
    cases hf : Assign.found w a <;> cases hl : a.isLong <;>
      simp_all [runAll, orReturn, Assign.run, Assign.found, Assign.sig, assignInt, assignLong,
        Heap.log, Heap.store, queries]


theorem executed_eq_self {w : World} {as : List Assign}
    (hall : as.all (Assign.found w) = true) : executed w as = as := by
  unfold executed
  rw [List.takeWhile_eq_self_iff]
  simpa using hall

theorem runAll_ok_iff (w : World) (as : List Assign) (h : Heap) :
    (runAll w as h).1 = 0 ↔ as.all (Assign.found w) = true := by
  rw [runAll_ret]
  split <;> simp_all

/-- Unfolding of `doStat` when the path copy succeeds. -/
theorem doStat_of_copy (w : World) (path : String) (lstatFlag : Int) (h : Heap) (c : String)
    (hc : w.getStringUTFChars path = some c) :
    Java_se_soderstrom_linux_FileStat_doStat w path lstatFlag h =
      if (sysCall w lstatFlag c).ret < 0 then
        ((sysCall w lstatFlag c).errno,
          ((h.log (.getStringUTFChars path)).log
            (if lstatFlag ≠ 0 then .lstat c else .stat c)).log (.releaseStringUTFChars path))
      else
        runAll w (assignments (sysCall w lstatFlag c).buf)
          (((h.log (.getStringUTFChars path)).log
            (if lstatFlag ≠ 0 then .lstat c else .stat c)).log (.releaseStringUTFChars path)) := by
  simp only [Java_se_soderstrom_linux_FileStat_doStat, hc, sysCall, transfer_eq_runAll]

/-- Unfolding of `doStat` when the path copy fails. -/
theorem doStat_of_no_copy (w : World) (path : String) (lstatFlag : Int) (h : Heap)
    (hc : w.getStringUTFChars path = none) :
    Java_se_soderstrom_linux_FileStat_doStat w path lstatFlag h =
      (-1, h.log (.getStringUTFChars path)) := by
  simp only [Java_se_soderstrom_linux_FileStat_doStat, hc]

/-- After a successful system call and return code 0 the object is the old
object with all 23 stores applied. -/
theorem doStat_ok_obj (w : World) (path : String) (lstatFlag : Int) (h : Heap) (c : String)
    (hc : w.getStringUTFChars path = some c)
    (hs : ¬ (sysCall w lstatFlag c).ret < 0)
    (hr : (Java_se_soderstrom_linux_FileStat_doStat w path lstatFlag h).1 = 0) :
    (Java_se_soderstrom_linux_FileStat_doStat w path lstatFlag h).2.obj =
      writes (assignments (sysCall w lstatFlag c).buf) h.obj := by
  rw [doStat_of_copy w path lstatFlag h c hc, if_neg hs] at hr ⊢
  rw [runAll_obj, executed_eq_self ((runAll_ok_iff _ _ _).1 hr)]
  rfl


theorem populated_writes (b : Stat) (o : String → Int) :
    Populated b (writes (assignments b) o) := by
  simp [Populated, assignments, writes]

/-- The seven type flags as the object holds them after all 23 stores. -/
theorem writes_type_flags (b : Stat) (o : String → Int) :
    writes (assignments b) o "isRegInt" = S_ISREG b.st_mode ∧
    writes (assignments b) o "isDirInt" = S_ISDIR b.st_mode ∧
    writes (assignments b) o "isChrInt" = S_ISCHR b.st_mode ∧
    writes (assignments b) o "isBlkInt" = S_ISBLK b.st_mode ∧
    writes (assignments b) o "isFifoInt" = S_ISFIFO b.st_mode ∧
    writes (assignments b) o "isLnkInt" = S_ISLNK b.st_mode ∧
    writes (assignments b) o "isSockInt" = S_ISSOCK b.st_mode := by
  simp [writes, assignments]

/-- Counting the non-zero type flags of an object that holds the seven tests. -/
theorem nonZeroCount_flags (m : Nat) (o : String → Int)
    (h1 : o "isRegInt" = S_ISREG m) (h2 : o "isDirInt" = S_ISDIR m)
    (h3 : o "isChrInt" = S_ISCHR m) (h4 : o "isBlkInt" = S_ISBLK m)
    (h5 : o "isFifoInt" = S_ISFIFO m) (h6 : o "isLnkInt" = S_ISLNK m)
    (h7 : o "isSockInt" = S_ISSOCK m) :
    nonZeroCount o typeFlagNames ≤ 1 ∧
    (nonZeroCount o typeFlagNames = 1 ↔ m &&& S_IFMT ∈ fileTypes) := by
  simp only [nonZeroCount, typeFlagNames, fileTypes, List.filter, h1, h2, h3, h4, h5, h6, h7,
    S_ISREG, S_ISDIR, S_ISCHR, S_ISBLK, S_ISFIFO, S_ISLNK, S_ISSOCK]
  generalize m &&& S_IFMT = t
  simp only [S_IFREG, S_IFDIR, S_IFCHR, S_IFBLK, S_IFIFO, S_IFLNK, S_IFSOCK]
  by_cases c1 : t = 0o100000
  · subst c1; simp
  by_cases c2 : t = 0o040000
  · subst c2; simp
  by_cases c3 : t = 0o020000
  · subst c3; simp
  by_cases c4 : t = 0o060000
  · subst c4; simp
  by_cases c5 : t = 0o010000
  · subst c5; simp
  by_cases c6 : t = 0o120000
  · subst c6; simp
  by_cases c7 : t = 0o140000
  · subst c7; simp
  simp [c1, c2, c3, c4, c5, c6, c7]

/-! ## C1: the type flags -/

/-- Claim C1 as stated fails: for the mode 0600 (no file-type bits) `doStat`
returns 0 and none of the seven type-flag fields is non-zero. -/
theorem untyped_mode_sets_no_flag :
    (sysCall (worldOf untypedFile) 0 "/proc/self/fd/3").buf.st_mode = 0o600 ∧
    (0o600 : Nat) < 2 ^ 32 ∧
    (Java_se_soderstrom_linux_FileStat_doStat
      (worldOf untypedFile) "/proc/self/fd/3" 0 freshHeap).1 = 0 ∧
    nonZeroCount (Java_se_soderstrom_linux_FileStat_doStat
      (worldOf untypedFile) "/proc/self/fd/3" 0 freshHeap).2.obj typeFlagNames = 0 := by
  decide

/-- Claim C1, amended: after a successful system call reporting mode `m` and
return code 0 of `doStat`, each of the seven type-flag fields holds the test
`(m & S_IFMT) == constant` for its file type, at most one of them is non-zero,
and exactly one is non-zero precisely when `m & S_IFMT` is one of the seven
file-type constants. -/
theorem doStat_type_flags (w : World) (path : String) (lstatFlag : Int) (h : Heap) (c : String)
    (hc : w.getStringUTFChars path = some c)
    (hs : ¬ (sysCall w lstatFlag c).ret < 0)
    (hr : (Java_se_soderstrom_linux_FileStat_doStat w path lstatFlag h).1 = 0) :
    (Java_se_soderstrom_linux_FileStat_doStat w path lstatFlag h).2.obj "isRegInt" =
      (if (sysCall w lstatFlag c).buf.st_mode &&& S_IFMT = S_IFREG then 1 else 0) ∧
    (Java_se_soderstrom_linux_FileStat_doStat w path lstatFlag h).2.obj "isDirInt" =
      (if (sysCall w lstatFlag c).buf.st_mode &&& S_IFMT = S_IFDIR then 1 else 0) ∧
    (Java_se_soderstrom_linux_FileStat_doStat w path lstatFlag h).2.obj "isChrInt" =
      (if (sysCall w lstatFlag c).buf.st_mode &&& S_IFMT = S_IFCHR then 1 else 0) ∧
    (Java_se_soderstrom_linux_FileStat_doStat w path lstatFlag h).2.obj "isBlkInt" =
      (if (sysCall w lstatFlag c).buf.st_mode &&& S_IFMT = S_IFBLK then 1 else 0) ∧
    (Java_se_soderstrom_linux_FileStat_doStat w path lstatFlag h).2.obj "isFifoInt" =
      (if (sysCall w lstatFlag c).buf.st_mode &&& S_IFMT = S_IFIFO then 1 else 0) ∧
    (Java_se_soderstrom_linux_FileStat_doStat w path lstatFlag h).2.obj "isLnkInt" =
      (if (sysCall w lstatFlag c).buf.st_mode &&& S_IFMT = S_IFLNK then 1 else 0) ∧
    (Java_se_soderstrom_linux_FileStat_doStat w path lstatFlag h).2.obj "isSockInt" =
      (if (sysCall w lstatFlag c).buf.st_mode &&& S_IFMT = S_IFSOCK then 1 else 0) ∧
    nonZeroCount (Java_se_soderstrom_linux_FileStat_doStat w path lstatFlag h).2.obj
      typeFlagNames ≤ 1 ∧
    (nonZeroCount (Java_se_soderstrom_linux_FileStat_doStat w path lstatFlag h).2.obj
      typeFlagNames = 1 ↔ (sysCall w lstatFlag c).buf.st_mode &&& S_IFMT ∈ fileTypes) := by
  rw [doStat_ok_obj w path lstatFlag h c hc hs hr]
  obtain ⟨h1, h2, h3, h4, h5, h6, h7⟩ := writes_type_flags (sysCall w lstatFlag c).buf h.obj
  obtain ⟨hle, hiff⟩ := nonZeroCount_flags _ _ h1 h2 h3 h4 h5 h6 h7
  exact ⟨h1, h2, h3, h4, h5, h6, h7, hle, hiff⟩

/-- The amended claim C1 at a regular file: exactly one flag is set. -/
theorem doStat_type_flags_witness :
    (worldOf regularFile).getStringUTFChars "/etc/hostname" = some "/etc/hostname" ∧
    ¬ (sysCall (worldOf regularFile) 0 "/etc/hostname").ret < 0 ∧
    (Java_se_soderstrom_linux_FileStat_doStat
      (worldOf regularFile) "/etc/hostname" 0 freshHeap).1 = 0 ∧
    (Java_se_soderstrom_linux_FileStat_doStat
      (worldOf regularFile) "/etc/hostname" 0 freshHeap).2.obj "isRegInt" = 1 ∧
    nonZeroCount (Java_se_soderstrom_linux_FileStat_doStat
      (worldOf regularFile) "/etc/hostname" 0 freshHeap).2.obj typeFlagNames = 1 :=
  have t := doStat_type_flags (worldOf regularFile) "/etc/hostname" 0 freshHeap "/etc/hostname"
    rfl (by decide) (by decide)
  ⟨rfl, by decide, by decide, t.1.trans (by decide), t.2.2.2.2.2.2.2.2.2 (by decide)⟩

/-! ## C2: the return code -/

theorem all_found_iff (w : World) (b : Stat) :
    (assignments b).all (Assign.found w) = true ↔
      ∀ f ∈ destinationFields, w.getFieldID f.1 f.2 = true := by
  simp [assignments, destinationFields, Assign.found, Assign.sig, FIELD_LONG, FIELD_INT]

theorem not_all_found_iff (w : World) (b : Stat) :
    ¬ (assignments b).all (Assign.found w) = true ↔
      ∃ f ∈ destinationFields, w.getFieldID f.1 f.2 = false := by
  rw [all_found_iff]
  simp

/-- The four outcomes of a call of `doStat` and the code returned in each. -/
theorem doStat_outcomes (w : World) (path : String) (lstatFlag : Int) (h : Heap) :
    (w.getStringUTFChars path = none ∧
      (Java_se_soderstrom_linux_FileStat_doStat w path lstatFlag h).1 = -1) ∨
    (∃ c, w.getStringUTFChars path = some c ∧ (sysCall w lstatFlag c).ret < 0 ∧
      (Java_se_soderstrom_linux_FileStat_doStat w path lstatFlag h).1 =
        (sysCall w lstatFlag c).errno) ∨
    (∃ c, w.getStringUTFChars path = some c ∧ ¬ (sysCall w lstatFlag c).ret < 0 ∧
      (∀ f ∈ destinationFields, w.getFieldID f.1 f.2 = true) ∧
      (Java_se_soderstrom_linux_FileStat_doStat w path lstatFlag h).1 = 0) ∨
    (∃ c, w.getStringUTFChars path = some c ∧ ¬ (sysCall w lstatFlag c).ret < 0 ∧
      (∃ f ∈ destinationFields, w.getFieldID f.1 f.2 = false) ∧
      (Java_se_soderstrom_linux_FileStat_doStat w path lstatFlag h).1 = -2) := by
  cases hc : w.getStringUTFChars path with
  | none =>
    left
    exact ⟨rfl, by rw [doStat_of_no_copy w path lstatFlag h hc]⟩
  | some c =>
    right
    rw [doStat_of_copy w path lstatFlag h c hc]
    by_cases hs : (sysCall w lstatFlag c).ret < 0
    · left
      exact ⟨c, rfl, hs, by rw [if_pos hs]⟩
    · right
      rw [if_neg hs, runAll_ret]
      by_cases ha : (assignments (sysCall w lstatFlag c).buf).all (Assign.found w) = true
      · left
        exact ⟨c, rfl, hs, (all_found_iff w _).1 ha, by rw [if_pos ha]⟩
      · right
        exact ⟨c, rfl, hs, (not_all_found_iff w _).1 ha, by rw [if_neg ha]⟩

/-- Claim C2: the return code of `doStat` classifies the outcome. Provided a
failing system call leaves a positive `errno`, the code is -1 exactly when the
path copy failed, a positive `e` exactly when the copy succeeded and the
system call failed with `errno = e`, -2 exactly when the system call succeeded
and the lookup of one of the 23 destination fields failed, and 0 exactly when
the system call succeeded and all 23 lookups succeeded; the four codes are
pairwise different. -/
theorem doStat_return_code (w : World) (path : String) (lstatFlag : Int) (h : Heap)
    (hpos : ∀ c, w.getStringUTFChars path = some c →
      (sysCall w lstatFlag c).ret < 0 → 0 < (sysCall w lstatFlag c).errno) :
    ((Java_se_soderstrom_linux_FileStat_doStat w path lstatFlag h).1 = -1 ↔
      w.getStringUTFChars path = none) ∧
    (∀ e : Int, 0 < e →
      ((Java_se_soderstrom_linux_FileStat_doStat w path lstatFlag h).1 = e ↔
        ∃ c, w.getStringUTFChars path = some c ∧
          (sysCall w lstatFlag c).ret < 0 ∧ (sysCall w lstatFlag c).errno = e)) ∧
    ((Java_se_soderstrom_linux_FileStat_doStat w path lstatFlag h).1 = -2 ↔
      ∃ c, w.getStringUTFChars path = some c ∧ ¬ (sysCall w lstatFlag c).ret < 0 ∧
        ∃ f ∈ destinationFields, w.getFieldID f.1 f.2 = false) ∧
    ((Java_se_soderstrom_linux_FileStat_doStat w path lstatFlag h).1 = 0 ↔
      ∃ c, w.getStringUTFChars path = some c ∧ ¬ (sysCall w lstatFlag c).ret < 0 ∧
        ∀ f ∈ destinationFields, w.getFieldID f.1 f.2 = true) ∧
    destinationFields.length = 23 ∧
    (∀ e : Int, 0 < e → (-1 : Int) ≠ e ∧ (-1 : Int) ≠ -2 ∧ (-1 : Int) ≠ 0 ∧
      e ≠ -2 ∧ e ≠ 0 ∧ (-2 : Int) ≠ 0) := by
  have hne : ∀ f ∈ destinationFields, w.getFieldID f.1 f.2 = true →
      w.getFieldID f.1 f.2 = false → False := fun f _ h1 h2 => by
    rw [h1] at h2; exact Bool.noConfusion h2
  rcases doStat_outcomes w path lstatFlag h with
    ⟨hc, hr⟩ | ⟨c, hc, hs, hr⟩ | ⟨c, hc, hs, ha, hr⟩ | ⟨c, hc, hs, ha, hr⟩
  · -- the path copy failed
    rw [hr]
    refine ⟨⟨fun _ => hc, fun _ => rfl⟩, fun e he => ⟨fun h1 => ?_, ?_⟩, ⟨fun h1 => ?_, ?_⟩,
      ⟨fun h1 => ?_, ?_⟩, rfl, fun e he => by omega⟩
    · omega
    · rintro ⟨c, hc', -⟩; rw [hc] at hc'; exact Option.noConfusion hc'
    · omega
    · rintro ⟨c, hc', -⟩; rw [hc] at hc'; exact Option.noConfusion hc'
    · omega
    · rintro ⟨c, hc', -⟩; rw [hc] at hc'; exact Option.noConfusion hc'
  · -- the system call failed
    have hp := hpos c hc hs
    rw [hr]
    refine ⟨⟨fun h1 => ?_, fun h1 => ?_⟩, fun e he => ⟨fun h1 => ⟨c, hc, hs, h1⟩, ?_⟩,
      ⟨fun h1 => ?_, ?_⟩, ⟨fun h1 => ?_, ?_⟩, rfl, fun e he => by omega⟩
    · omega
    · rw [hc] at h1; exact Option.noConfusion h1
    · rintro ⟨c', hc', -, he'⟩
      rw [hc] at hc'; cases hc'; exact he'
    · omega
    · rintro ⟨c', hc', hs', -⟩
      rw [hc] at hc'; cases hc'; exact absurd hs hs'
    · omega
    · rintro ⟨c', hc', hs', -⟩
      rw [hc] at hc'; cases hc'; exact absurd hs hs'
  · -- every lookup succeeded
    rw [hr]
    refine ⟨⟨fun h1 => ?_, fun h1 => ?_⟩, fun e he => ⟨fun h1 => ?_, ?_⟩,
      ⟨fun h1 => ?_, ?_⟩, ⟨fun _ => ⟨c, hc, hs, ha⟩, fun _ => rfl⟩, rfl, fun e he => by omega⟩
    · omega
    · rw [hc] at h1; exact Option.noConfusion h1
    · omega
    · rintro ⟨c', hc', hs', -⟩
      rw [hc] at hc'; cases hc'; exact absurd hs' hs
    · omega
    · rintro ⟨c', -, -, f, hf, hff⟩
      exact (hne f hf (ha f hf) hff).elim
  · -- some lookup failed
    rw [hr]
    refine ⟨⟨fun h1 => ?_, fun h1 => ?_⟩, fun e he => ⟨fun h1 => ?_, ?_⟩,
      ⟨fun _ => ⟨c, hc, hs, ha⟩, fun _ => rfl⟩, ⟨fun h1 => ?_, ?_⟩, rfl, fun e he => by omega⟩
    · omega
    · rw [hc] at h1; exact Option.noConfusion h1
    · omega
    · rintro ⟨c', hc', hs', -⟩
      rw [hc] at hc'; cases hc'; exact absurd hs' hs
    · omega
    · rintro ⟨c', -, -, hall⟩
      obtain ⟨f, hf, hff⟩ := ha
      exact (hne f hf (hall f hf) hff).elim

/-- Claim C2 at a nonexistent path: the hypothesis holds and the code is not -1. -/
theorem doStat_return_code_witness :
    ((Java_se_soderstrom_linux_FileStat_doStat worldNoEnt "/nonexistent" 0 freshHeap).1 = -1 ↔
      worldNoEnt.getStringUTFChars "/nonexistent" = none) ∧
    (Java_se_soderstrom_linux_FileStat_doStat worldNoEnt "/nonexistent" 0 freshHeap).1 = 2 ∧
    destinationFields.length = 23 :=
  have t := doStat_return_code worldNoEnt "/nonexistent" 0 freshHeap
    (fun c _ _ => show (0 : Int) < 2 by decide)
  ⟨t.1, by decide, t.2.2.2.2.1⟩

/-! ## C3: what a call leaves in the record -/

theorem writes_of_not_mem (as : List Assign) (o : String → Int) (n : String)
    (hn : n ∉ as.map Assign.name) : writes as o n = o n := by
  induction as generalizing o with
  | nil => rfl
  | cons a as ih =>
    simp only [List.map_cons, List.mem_cons, not_or] at hn
    rw [writes, ih _ hn.2, if_neg hn.1]

theorem writes_of_mem (as : List Assign) (o : String → Int) (a : Assign)
    (hnd : (as.map Assign.name).Nodup) (ha : a ∈ as) : writes as o a.name = a.value := by
  induction as generalizing o with
  | nil => cases ha
  | cons b bs ih =>
    rw [List.map_cons, List.nodup_cons] at hnd
    rw [writes]
    rcases List.mem_cons.1 ha with hab | hab
    · subst hab
      rw [writes_of_not_mem _ _ _ hnd.1, if_pos rfl]
    · exact ih _ hnd.2 hab

theorem assignments_names_nodup (b : Stat) : ((assignments b).map Assign.name).Nodup := by
  simp only [assignments, List.map_cons, List.map_nil]
  decide

theorem executed_names_nodup (w : World) (b : Stat) :
    ((executed w (assignments b)).map Assign.name).Nodup :=
  ((List.takeWhile_prefix _).sublist.map _).nodup (assignments_names_nodup b)

/-- Claim C3 as stated fails: when the class has the field `device` but not
the field `inode`, `doStat` returns -2 after storing `device` only, so the
record is neither fully populated nor identical to the record before the call. -/
theorem doStat_half_written :
    (Java_se_soderstrom_linux_FileStat_doStat
      worldDeviceOnly "/etc/hostname" 0 freshHeap).1 = -2 ∧
    (Java_se_soderstrom_linux_FileStat_doStat
      worldDeviceOnly "/etc/hostname" 0 freshHeap).2.obj "device" = 2049 ∧
    freshHeap.obj "device" = 0 ∧
    (Java_se_soderstrom_linux_FileStat_doStat
      worldDeviceOnly "/etc/hostname" 0 freshHeap).2.obj "inode" = 0 ∧
    (sysCall worldDeviceOnly 0 "/etc/hostname").buf.st_ino = 131 ∧
    ¬ (Populated (sysCall worldDeviceOnly 0 "/etc/hostname").buf
        (Java_se_soderstrom_linux_FileStat_doStat
          worldDeviceOnly "/etc/hostname" 0 freshHeap).2.obj ∨
      (Java_se_soderstrom_linux_FileStat_doStat
        worldDeviceOnly "/etc/hostname" 0 freshHeap).2.obj = freshHeap.obj) := by
  refine ⟨by decide, by decide, by decide, by decide, by decide, ?_⟩
  rintro (hp | he)
  · exact absurd hp (by decide)
  · exact absurd (congrFun he "device") (by decide)

/-- Claim C3, amended: the record after a call of `doStat` is the record before
the call with the stores of the lines that precede the first failing lookup
applied, in source order. It is identical to the record before the call when
the path copy fails, when the system call fails, and when the first lookup
(`device`) fails; it is fully populated when the system call succeeds and
`doStat` returns 0; otherwise `doStat` returns -2, the fields of the lines
before the first failing lookup hold their derived values, and every other
field is unchanged. -/
theorem doStat_record_after (w : World) (path : String) (lstatFlag : Int) (h : Heap) :
    (w.getStringUTFChars path = none →
      (Java_se_soderstrom_linux_FileStat_doStat w path lstatFlag h).2.obj = h.obj) ∧
    (∀ c, w.getStringUTFChars path = some c →
      ((sysCall w lstatFlag c).ret < 0 →
        (Java_se_soderstrom_linux_FileStat_doStat w path lstatFlag h).2.obj = h.obj) ∧
      (¬ (sysCall w lstatFlag c).ret < 0 →
        executed w (assignments (sysCall w lstatFlag c).buf) <+:
          assignments (sysCall w lstatFlag c).buf ∧
        (∀ a ∈ executed w (assignments (sysCall w lstatFlag c).buf),
          (Java_se_soderstrom_linux_FileStat_doStat w path lstatFlag h).2.obj a.name
            = a.value) ∧
        (∀ n, n ∉ (executed w (assignments (sysCall w lstatFlag c).buf)).map Assign.name →
          (Java_se_soderstrom_linux_FileStat_doStat w path lstatFlag h).2.obj n = h.obj n) ∧
        ((Java_se_soderstrom_linux_FileStat_doStat w path lstatFlag h).1 = 0 ↔
          executed w (assignments (sysCall w lstatFlag c).buf) =
            assignments (sysCall w lstatFlag c).buf) ∧
        ((Java_se_soderstrom_linux_FileStat_doStat w path lstatFlag h).1 = 0 →
          Populated (sysCall w lstatFlag c).buf
            (Java_se_soderstrom_linux_FileStat_doStat w path lstatFlag h).2.obj) ∧
        ((Java_se_soderstrom_linux_FileStat_doStat w path lstatFlag h).1 ≠ 0 →
          (Java_se_soderstrom_linux_FileStat_doStat w path lstatFlag h).1 = -2) ∧
        (w.getFieldID "device" "J" = false →
          (Java_se_soderstrom_linux_FileStat_doStat w path lstatFlag h).2.obj = h.obj))) := by
  refine ⟨fun hc => by rw [doStat_of_no_copy w path lstatFlag h hc]; rfl, fun c hc => ?_⟩
  rw [doStat_of_copy w path lstatFlag h c hc]
  refine ⟨fun hs => by rw [if_pos hs]; rfl, fun hs => ?_⟩
  rw [if_neg hs, runAll_obj, runAll_ret]
  have hobj : ((((h.log (.getStringUTFChars path)).log
      (if lstatFlag ≠ 0 then .lstat c else .stat c)).log
        (.releaseStringUTFChars path)).obj) = h.obj := rfl
  rw [hobj]
  have hiff : (assignments (sysCall w lstatFlag c).buf).all (Assign.found w) = true ↔
      executed w (assignments (sysCall w lstatFlag c).buf) =
        assignments (sysCall w lstatFlag c).buf := by
    unfold executed
    rw [List.takeWhile_eq_self_iff]
    simp
  refine ⟨List.takeWhile_prefix _,
    fun a ha => writes_of_mem _ _ a (executed_names_nodup w _) ha,
    fun n hn => writes_of_not_mem _ _ n hn, ?_, ?_, ?_, ?_⟩
  · rw [← hiff]
    split <;> simp_all
  · intro h0
    have hall : (assignments (sysCall w lstatFlag c).buf).all (Assign.found w) = true := by
      by_contra hne
      rw [if_neg hne] at h0
      omega
    rw [hiff.1 hall]
    exact populated_writes _ _
  · intro hne
    split
    · rename_i hall
      rw [if_pos hall] at hne
      exact absurd rfl hne
    · rfl
  · intro hdev
    have hex : executed w (assignments (sysCall w lstatFlag c).buf) = [] := by
      simp [executed, assignments, List.takeWhile, Assign.found, Assign.sig, FIELD_LONG, hdev]
    rw [hex]
    rfl

/-- The amended claim C3 where only `device` exists: `device` holds its derived
value and `inode` is unchanged. -/
theorem doStat_record_after_witness :
    worldDeviceOnly.getStringUTFChars "/etc/hostname" = some "/etc/hostname" ∧
    ¬ (sysCall worldDeviceOnly 0 "/etc/hostname").ret < 0 ∧
    (Java_se_soderstrom_linux_FileStat_doStat
      worldDeviceOnly "/etc/hostname" 0 freshHeap).2.obj "device" = toCLong 2049 ∧
    (Java_se_soderstrom_linux_FileStat_doStat
      worldDeviceOnly "/etc/hostname" 0 freshHeap).2.obj "inode" = freshHeap.obj "inode" :=
  have t := ((doStat_record_after worldDeviceOnly "/etc/hostname" 0 freshHeap).2
    "/etc/hostname" rfl).2 (by decide)
  ⟨rfl, by decide, t.2.1 ⟨true, "device", toCLong 2049⟩ (by decide),
    t.2.2.1 "inode" (by decide)⟩

/-! ## C4: a failing system call -/

/-- Claim C4: when the path copy succeeds and the selected system call fails
with `errno = e`, `doStat` returns `e`, every field of the record keeps its
value, and the call makes exactly three external calls (copy of the path, the
system call, release of the path): no field lookup and no field store. -/
theorem doStat_syscall_failure (w : World) (path : String) (lstatFlag : Int) (h : Heap)
    (c : String) (e : Int)
    (hc : w.getStringUTFChars path = some c)
    (hs : (sysCall w lstatFlag c).ret < 0)
    (he : (sysCall w lstatFlag c).errno = e) :
    (Java_se_soderstrom_linux_FileStat_doStat w path lstatFlag h).1 = e ∧
    (∀ n, (Java_se_soderstrom_linux_FileStat_doStat w path lstatFlag h).2.obj n = h.obj n) ∧
    (Java_se_soderstrom_linux_FileStat_doStat w path lstatFlag h).2.trace =
      h.trace ++ [.getStringUTFChars path, if lstatFlag ≠ 0 then .lstat c else .stat c,
        .releaseStringUTFChars path] ∧
    fieldEvents (Java_se_soderstrom_linux_FileStat_doStat w path lstatFlag h).2.trace =
      fieldEvents h.trace := by
  rw [doStat_of_copy w path lstatFlag h c hc, if_pos hs]
  refine ⟨he, fun n => rfl, by simp [Heap.log], ?_⟩
  by_cases hf : lstatFlag = 0 <;> simp [Heap.log, fieldEvents, hf]

/-- Claim C4 at a nonexistent path: the code is `ENOENT` and the record is untouched. -/
theorem doStat_syscall_failure_witness :
    worldNoEnt.getStringUTFChars "/nonexistent" = some "/nonexistent" ∧
    (sysCall worldNoEnt 0 "/nonexistent").ret < 0 ∧
    (sysCall worldNoEnt 0 "/nonexistent").errno = 2 ∧
    (Java_se_soderstrom_linux_FileStat_doStat worldNoEnt "/nonexistent" 0 freshHeap).1 = 2 ∧
    (Java_se_soderstrom_linux_FileStat_doStat worldNoEnt "/nonexistent" 0 freshHeap).2.trace =
      freshHeap.trace ++ [.getStringUTFChars "/nonexistent",
        if (0 : Int) ≠ 0 then .lstat "/nonexistent" else .stat "/nonexistent",
        .releaseStringUTFChars "/nonexistent"] :=
  have t := doStat_syscall_failure worldNoEnt "/nonexistent" 0 freshHeap "/nonexistent" 2
    rfl (by decide) (by decide)
  ⟨rfl, by decide, by decide, t.1, t.2.2.1⟩

/-! ## C5: which system call is issued, and how often -/

theorem queries_append (s t : List Event) : queries (s ++ t) = queries s ++ queries t := by
  simp [queries]

/-- Claim C5: when the path copy succeeds, a call of `doStat` adds exactly one
system query to the trace, `stat` on the copied path when `lstatFlag` is 0 and
`lstat` on the copied path when `lstatFlag` is greater than 0; when the path
copy fails it adds none. -/
theorem doStat_single_query (w : World) (path : String) (lstatFlag : Int) (h : Heap) :
    (∀ c, w.getStringUTFChars path = some c →
      (lstatFlag = 0 →
        queries (Java_se_soderstrom_linux_FileStat_doStat w path lstatFlag h).2.trace =
          queries h.trace ++ [.stat c]) ∧
      (0 < lstatFlag →
        queries (Java_se_soderstrom_linux_FileStat_doStat w path lstatFlag h).2.trace =
          queries h.trace ++ [.lstat c])) ∧
    (w.getStringUTFChars path = none →
      queries (Java_se_soderstrom_linux_FileStat_doStat w path lstatFlag h).2.trace =
        queries h.trace) := by
  refine ⟨fun c hc => ?_, fun hc => ?_⟩
  · rw [doStat_of_copy w path lstatFlag h c hc]
    have key : queries (if (sysCall w lstatFlag c).ret < 0 then
          ((sysCall w lstatFlag c).errno,
            ((h.log (.getStringUTFChars path)).log
              (if lstatFlag ≠ 0 then .lstat c else .stat c)).log (.releaseStringUTFChars path))
        else
          runAll w (assignments (sysCall w lstatFlag c).buf)
            (((h.log (.getStringUTFChars path)).log
              (if lstatFlag ≠ 0 then .lstat c else .stat c)).log
                (.releaseStringUTFChars path))).2.trace =
        queries h.trace ++ queries [if lstatFlag ≠ 0 then .lstat c else .stat c] := by
      split
      · by_cases hf : lstatFlag = 0 <;> simp [Heap.log, queries, hf]
      · rw [runAll_queries]
        by_cases hf : lstatFlag = 0 <;> simp [Heap.log, queries, hf]
    rw [key]
    constructor
    · intro hf
      subst hf
      simp [queries]
    · intro hf
      have hne : lstatFlag ≠ 0 := by omega
      simp [queries, hne]
  · rw [doStat_of_no_copy w path lstatFlag h hc]
    simp [Heap.log, queries_append]
    simp [queries]

/-- Claim C5 on a symbolic link: flag 0 issues one `stat`, flag 1 one `lstat`;
and a call whose path copy fails issues no query. -/
theorem doStat_single_query_witness :
    worldLink.getStringUTFChars "/tmp/link" = some "/tmp/link" ∧
    queries (Java_se_soderstrom_linux_FileStat_doStat worldLink "/tmp/link" 0 freshHeap).2.trace =
      queries freshHeap.trace ++ [.stat "/tmp/link"] ∧
    queries (Java_se_soderstrom_linux_FileStat_doStat worldLink "/tmp/link" 1 freshHeap).2.trace =
      queries freshHeap.trace ++ [.lstat "/tmp/link"] ∧
    worldNoMem.getStringUTFChars "/tmp/link" = none ∧
    queries (Java_se_soderstrom_linux_FileStat_doStat worldNoMem "/tmp/link" 0 freshHeap).2.trace =
      queries freshHeap.trace :=
  ⟨rfl,
    ((doStat_single_query worldLink "/tmp/link" 0 freshHeap).1 "/tmp/link" rfl).1 rfl,
    ((doStat_single_query worldLink "/tmp/link" 1 freshHeap).1 "/tmp/link" rfl).2 (by decide),
    rfl,
    (doStat_single_query worldNoMem "/tmp/link" 0 freshHeap).2 rfl⟩

/-! ## C6 and C7: `doSymLink` -/

/-- Unfolding of `doSymLink` when the path copy succeeds. -/
theorem doSymLink_of_copy (w : World) (path : String) (h : Heap) (c : String)
    (hc : w.getStringUTFChars path = some c) :
    Java_se_soderstrom_linux_FileStat_doSymLink w path h =
      (if (w.lstat c).ret < 0 then toCInt ((w.lstat c).errno + 1000)
        else if S_ISLNK (w.lstat c).buf.st_mode ≠ 0 then 1 else 0,
       ((h.log (.getStringUTFChars path)).log (.lstat c)).log (.releaseStringUTFChars path)) := by
  simp only [Java_se_soderstrom_linux_FileStat_doSymLink, hc]
  split <;> rfl

/-- Unfolding of `doSymLink` when the path copy fails. -/
theorem doSymLink_of_no_copy (w : World) (path : String) (h : Heap)
    (hc : w.getStringUTFChars path = none) :
    Java_se_soderstrom_linux_FileStat_doSymLink w path h =
      (-1, h.log (.getStringUTFChars path)) := by
  simp only [Java_se_soderstrom_linux_FileStat_doSymLink, hc]

/-- Claim C6: `doSymLink` never issues `stat`; when the path copy succeeds it
issues exactly one system query, `lstat` on the copied path; and when that
`lstat` succeeds with mode `m` it returns 1 if `m & 0170000` is `S_IFLNK` and 0
otherwise, hence never another value. -/
theorem doSymLink_result (w : World) (path : String) (h : Heap) :
    (∀ p, Event.stat p ∈ (Java_se_soderstrom_linux_FileStat_doSymLink w path h).2.trace →
      Event.stat p ∈ h.trace) ∧
    (∀ c, w.getStringUTFChars path = some c →
      queries (Java_se_soderstrom_linux_FileStat_doSymLink w path h).2.trace =
        queries h.trace ++ [.lstat c] ∧
      (¬ (w.lstat c).ret < 0 →
        (Java_se_soderstrom_linux_FileStat_doSymLink w path h).1 =
          (if (w.lstat c).buf.st_mode &&& 0o170000 = S_IFLNK then 1 else 0) ∧
        ((Java_se_soderstrom_linux_FileStat_doSymLink w path h).1 = 0 ∨
          (Java_se_soderstrom_linux_FileStat_doSymLink w path h).1 = 1))) := by
  constructor
  · intro p hp
    cases hc : w.getStringUTFChars path with
    | none =>
      rw [doSymLink_of_no_copy w path h hc] at hp
      simpa [Heap.log] using hp
    | some c =>
      rw [doSymLink_of_copy w path h c hc] at hp
      simpa [Heap.log] using hp
  · intro c hc
    rw [doSymLink_of_copy w path h c hc]
    refine ⟨by simp [Heap.log, queries], fun hs => ?_⟩
    simp only [if_neg hs, S_ISLNK, S_IFMT]
    by_cases hm : (w.lstat c).buf.st_mode &&& 0o170000 = S_IFLNK <;> simp [hm]

/-- Claim C6 on a symbolic link to a regular file: the answer is 1 although
`stat` would report a regular file. -/
theorem doSymLink_result_witness :
    worldLink.getStringUTFChars "/tmp/link" = some "/tmp/link" ∧
    ¬ (worldLink.lstat "/tmp/link").ret < 0 ∧
    queries (Java_se_soderstrom_linux_FileStat_doSymLink worldLink "/tmp/link" freshHeap).2.trace =
      queries freshHeap.trace ++ [.lstat "/tmp/link"] ∧
    (Java_se_soderstrom_linux_FileStat_doSymLink worldLink "/tmp/link" freshHeap).1 = 1 :=
  have t := (doSymLink_result worldLink "/tmp/link" freshHeap).2 "/tmp/link" rfl
  ⟨rfl, by decide, t.1, (t.2 (by decide)).1.trans (by decide)⟩

/-- Claim C7: when `lstat` fails with `errno = e`, `doSymLink` returns
`e + 1000` (for every `e` for which that sum is an `int`); and for `e` in
1..999 this code differs from the success results 0 and 1, from the sentinels
-1 and -2, and from the code of every call of `doStat` whose system call failed
with an `errno` in 1..999. -/
theorem doSymLink_error_code (w : World) (path : String) (h : Heap) (c : String) (e : Int)
    (hc : w.getStringUTFChars path = some c)
    (hs : (w.lstat c).ret < 0)
    (he : (w.lstat c).errno = e) :
    (-2 ^ 31 ≤ e + 1000 ∧ e + 1000 < 2 ^ 31 →
      (Java_se_soderstrom_linux_FileStat_doSymLink w path h).1 = e + 1000) ∧
    (1 ≤ e ∧ e ≤ 999 →
      (Java_se_soderstrom_linux_FileStat_doSymLink w path h).1 ≠ 0 ∧
      (Java_se_soderstrom_linux_FileStat_doSymLink w path h).1 ≠ 1 ∧
      (Java_se_soderstrom_linux_FileStat_doSymLink w path h).1 ≠ -1 ∧
      (Java_se_soderstrom_linux_FileStat_doSymLink w path h).1 ≠ -2 ∧
      ∀ (w' : World) (path' : String) (lstatFlag : Int) (h' : Heap) (c' : String),
        w'.getStringUTFChars path' = some c' →
        (sysCall w' lstatFlag c').ret < 0 →
        1 ≤ (sysCall w' lstatFlag c').errno ∧ (sysCall w' lstatFlag c').errno ≤ 999 →
        (Java_se_soderstrom_linux_FileStat_doSymLink w path h).1 ≠
          (Java_se_soderstrom_linux_FileStat_doStat w' path' lstatFlag h').1) := by
  have hret : ∀ lo : -2 ^ 31 ≤ e + 1000, e + 1000 < 2 ^ 31 →
      (Java_se_soderstrom_linux_FileStat_doSymLink w path h).1 = e + 1000 := by
    intro lo hi
    rw [doSymLink_of_copy w path h c hc]
    simp only [if_pos hs, he]
    exact toCInt_of_range lo hi
  refine ⟨fun hr => hret hr.1 hr.2, fun hr => ?_⟩
  rw [hret (by omega) (by omega)]
  refine ⟨by omega, by omega, by omega, by omega, ?_⟩
  intro w' path' lstatFlag h' c' hc' hs' he'
  rw [doStat_of_copy w' path' lstatFlag h' c' hc', if_pos hs']
  simp only
  omega

/-- Claim C7 where `lstat` fails with `EACCES` (13): the code is 1013, while
`doStat` reports 2 for its own failing call. -/
theorem doSymLink_error_code_witness :
    worldDenied.getStringUTFChars "/root/secret" = some "/root/secret" ∧
    (worldDenied.lstat "/root/secret").ret < 0 ∧
    (worldDenied.lstat "/root/secret").errno = 13 ∧
    (Java_se_soderstrom_linux_FileStat_doSymLink worldDenied "/root/secret" freshHeap).1 =
      13 + 1000 ∧
    (Java_se_soderstrom_linux_FileStat_doSymLink worldDenied "/root/secret" freshHeap).1 ≠
      (Java_se_soderstrom_linux_FileStat_doStat worldDenied "/root/secret" 0 freshHeap).1 :=
  have t := doSymLink_error_code worldDenied "/root/secret" freshHeap "/root/secret" 13
    rfl (by decide) (by decide)
  ⟨rfl, by decide, by decide, t.1 (by decide),
    (t.2 (by decide)).2.2.2.2 worldDenied "/root/secret" 0 freshHeap "/root/secret"
      rfl (by decide) (by decide)⟩

/-! ## C8: the protection field -/

theorem writes_protection (b : Stat) (o : String → Int) :
    writes (assignments b) o "protection" = ((b.st_mode &&& 0o7777 : Nat) : Int) := by
  have hle : b.st_mode &&& 0o7777 ≤ 0o7777 := Nat.and_le_right
  have hval : writes (assignments b) o "protection" =
      toCInt ((b.st_mode &&& 0o7777 : Nat) : Int) := by
    simp [writes, assignments]
  rw [hval]
  apply toCInt_of_range <;> omega

/-- Claim C8: after a successful system call reporting mode `m` and return code
0 of `doStat`, the field `protection` holds `m & 07777`. That value lies in
0..4095, agrees with `m` on the setuid, setgid and sticky bits and on the nine
permission bits, and has none of the file-type bits `S_IFMT`. -/
theorem doStat_protection (w : World) (path : String) (lstatFlag : Int) (h : Heap) (c : String)
    (hc : w.getStringUTFChars path = some c)
    (hs : ¬ (sysCall w lstatFlag c).ret < 0)
    (hr : (Java_se_soderstrom_linux_FileStat_doStat w path lstatFlag h).1 = 0) :
    (Java_se_soderstrom_linux_FileStat_doStat w path lstatFlag h).2.obj "protection" =
      (((sysCall w lstatFlag c).buf.st_mode &&& 0o7777 : Nat) : Int) ∧
    0 ≤ (Java_se_soderstrom_linux_FileStat_doStat w path lstatFlag h).2.obj "protection" ∧
    (Java_se_soderstrom_linux_FileStat_doStat w path lstatFlag h).2.obj "protection" ≤ 4095 ∧
    ((sysCall w lstatFlag c).buf.st_mode &&& 0o7777) &&& 0o4000 =
      (sysCall w lstatFlag c).buf.st_mode &&& 0o4000 ∧
    ((sysCall w lstatFlag c).buf.st_mode &&& 0o7777) &&& 0o2000 =
      (sysCall w lstatFlag c).buf.st_mode &&& 0o2000 ∧
    ((sysCall w lstatFlag c).buf.st_mode &&& 0o7777) &&& 0o1000 =
      (sysCall w lstatFlag c).buf.st_mode &&& 0o1000 ∧
    ((sysCall w lstatFlag c).buf.st_mode &&& 0o7777) &&& 0o777 =
      (sysCall w lstatFlag c).buf.st_mode &&& 0o777 ∧
    ((sysCall w lstatFlag c).buf.st_mode &&& 0o7777) &&& S_IFMT = 0 := by
  rw [doStat_ok_obj w path lstatFlag h c hc hs hr, writes_protection]
  have hle : (sysCall w lstatFlag c).buf.st_mode &&& 0o7777 ≤ 0o7777 := Nat.and_le_right
  refine ⟨rfl, by omega, by omega, ?_, ?_, ?_, ?_, ?_⟩
  · rw [Nat.and_assoc]; rfl
  · rw [Nat.and_assoc]; rfl
  · rw [Nat.and_assoc]; rfl
  · rw [Nat.and_assoc]; rfl
  · rw [Nat.and_assoc]
    show (sysCall w lstatFlag c).buf.st_mode &&& 0 = 0
    exact Nat.and_zero _

/-- Claim C8 on a setuid executable of mode 0104755: `protection` is 04755. -/
theorem doStat_protection_witness :
    (worldOf setuidFile).getStringUTFChars "/usr/bin/passwd" = some "/usr/bin/passwd" ∧
    ¬ (sysCall (worldOf setuidFile) 0 "/usr/bin/passwd").ret < 0 ∧
    (Java_se_soderstrom_linux_FileStat_doStat
      (worldOf setuidFile) "/usr/bin/passwd" 0 freshHeap).1 = 0 ∧
    (Java_se_soderstrom_linux_FileStat_doStat
      (worldOf setuidFile) "/usr/bin/passwd" 0 freshHeap).2.obj "protection" = 0o4755 :=
  have t := doStat_protection (worldOf setuidFile) "/usr/bin/passwd" 0 freshHeap
    "/usr/bin/passwd" rfl (by decide) (by decide)
  ⟨rfl, by decide, by decide, t.1.trans (by decide)⟩

/-! ## C9 and C10: the copied fields -/

theorem toCLong_of_nat (n : Nat) (hn : n < 2 ^ 64) :
    toCLong n = if n < 2 ^ 63 then (n : Int) else (n : Int) - 2 ^ 64 := by
  unfold toCLong
  split <;> omega

theorem toCInt_of_nat (n : Nat) (hn : n < 2 ^ 32) :
    toCInt n = if n < 2 ^ 31 then (n : Int) else (n : Int) - 2 ^ 32 := by
  unfold toCInt
  split <;> omega

/-- The fields that `doStat` copies, as the object holds them after all 23 stores. -/
theorem writes_copied (b : Stat) (o : String → Int) :
    writes (assignments b) o "device" = toCLong b.st_dev ∧
    writes (assignments b) o "inode" = toCLong b.st_ino ∧
    writes (assignments b) o "nlink" = toCLong b.st_nlink ∧
    writes (assignments b) o "rdev" = toCLong b.st_rdev ∧
    writes (assignments b) o "size" = b.st_size ∧
    writes (assignments b) o "blksize" = b.st_blksize ∧
    writes (assignments b) o "blocks" = b.st_blocks ∧
    writes (assignments b) o "atimeSecs" = b.st_atim.tv_sec ∧
    writes (assignments b) o "atimeNanos" = b.st_atim.tv_nsec ∧
    writes (assignments b) o "mtimeSecs" = b.st_mtim.tv_sec ∧
    writes (assignments b) o "mtimeNanos" = b.st_mtim.tv_nsec ∧
    writes (assignments b) o "ctimeSecs" = b.st_ctim.tv_sec ∧
    writes (assignments b) o "ctimeNanos" = b.st_ctim.tv_nsec := by
  simp [writes, assignments]

theorem writes_owner (b : Stat) (o : String → Int) :
    writes (assignments b) o "uid" = toCInt b.st_uid ∧
    writes (assignments b) o "gid" = toCInt b.st_gid := by
  simp [writes, assignments]

theorem destinationFields_names (b : Stat) :
    destinationFields.map Prod.fst = (assignments b).map Assign.name := by
  simp [destinationFields, assignments]

/-- Claim C9 as stated fails: for the inode number 2^63 `doStat` returns 0 and
the field `inode` holds -2^63, not the number that the system call reported. -/
theorem doStat_inode_not_exact :
    highInodeFile.InRange ∧
    (sysCall (worldOf highInodeFile) 0 "/mnt/data").buf.st_ino = 9223372036854775808 ∧
    (Java_se_soderstrom_linux_FileStat_doStat
      (worldOf highInodeFile) "/mnt/data" 0 freshHeap).1 = 0 ∧
    (Java_se_soderstrom_linux_FileStat_doStat
      (worldOf highInodeFile) "/mnt/data" 0 freshHeap).2.obj "inode" = -9223372036854775808 ∧
    (Java_se_soderstrom_linux_FileStat_doStat
      (worldOf highInodeFile) "/mnt/data" 0 freshHeap).2.obj "inode" ≠
        ((sysCall (worldOf highInodeFile) 0 "/mnt/data").buf.st_ino : Int) := by
  decide

/-- Claim C9, amended: after a successful system call and return code 0 of
`doStat`, each copied field holds the reported value converted to a signed
64-bit integer. The signed members `size`, `blksize`, `blocks` and the six
timestamp members are held exactly, each (seconds, nanoseconds) pair in the
fields of its own timestamp; the unsigned members `device`, `inode`, `nlink`,
`rdev` are held exactly when below 2^63 and as the value minus 2^64 otherwise.
The 23 fields do not depend on the record before the call. -/
theorem doStat_copied_fields (w : World) (path : String) (lstatFlag : Int) (h : Heap)
    (c : String)
    (hc : w.getStringUTFChars path = some c)
    (hs : ¬ (sysCall w lstatFlag c).ret < 0)
    (hr : (Java_se_soderstrom_linux_FileStat_doStat w path lstatFlag h).1 = 0)
    (hb : (sysCall w lstatFlag c).buf.InRange) :
    (Java_se_soderstrom_linux_FileStat_doStat w path lstatFlag h).2.obj "device" =
      (if (sysCall w lstatFlag c).buf.st_dev < 2 ^ 63
        then ((sysCall w lstatFlag c).buf.st_dev : Int)
        else ((sysCall w lstatFlag c).buf.st_dev : Int) - 2 ^ 64) ∧
    (Java_se_soderstrom_linux_FileStat_doStat w path lstatFlag h).2.obj "inode" =
      (if (sysCall w lstatFlag c).buf.st_ino < 2 ^ 63
        then ((sysCall w lstatFlag c).buf.st_ino : Int)
        else ((sysCall w lstatFlag c).buf.st_ino : Int) - 2 ^ 64) ∧
    (Java_se_soderstrom_linux_FileStat_doStat w path lstatFlag h).2.obj "nlink" =
      (if (sysCall w lstatFlag c).buf.st_nlink < 2 ^ 63
        then ((sysCall w lstatFlag c).buf.st_nlink : Int)
        else ((sysCall w lstatFlag c).buf.st_nlink : Int) - 2 ^ 64) ∧
    (Java_se_soderstrom_linux_FileStat_doStat w path lstatFlag h).2.obj "rdev" =
      (if (sysCall w lstatFlag c).buf.st_rdev < 2 ^ 63
        then ((sysCall w lstatFlag c).buf.st_rdev : Int)
        else ((sysCall w lstatFlag c).buf.st_rdev : Int) - 2 ^ 64) ∧
    (Java_se_soderstrom_linux_FileStat_doStat w path lstatFlag h).2.obj "size" =
      (sysCall w lstatFlag c).buf.st_size ∧
    (Java_se_soderstrom_linux_FileStat_doStat w path lstatFlag h).2.obj "blksize" =
      (sysCall w lstatFlag c).buf.st_blksize ∧
    (Java_se_soderstrom_linux_FileStat_doStat w path lstatFlag h).2.obj "blocks" =
      (sysCall w lstatFlag c).buf.st_blocks ∧
    (Java_se_soderstrom_linux_FileStat_doStat w path lstatFlag h).2.obj "atimeSecs" =
      (sysCall w lstatFlag c).buf.st_atim.tv_sec ∧
    (Java_se_soderstrom_linux_FileStat_doStat w path lstatFlag h).2.obj "atimeNanos" =
      (sysCall w lstatFlag c).buf.st_atim.tv_nsec ∧
    (Java_se_soderstrom_linux_FileStat_doStat w path lstatFlag h).2.obj "mtimeSecs" =
      (sysCall w lstatFlag c).buf.st_mtim.tv_sec ∧
    (Java_se_soderstrom_linux_FileStat_doStat w path lstatFlag h).2.obj "mtimeNanos" =
      (sysCall w lstatFlag c).buf.st_mtim.tv_nsec ∧
    (Java_se_soderstrom_linux_FileStat_doStat w path lstatFlag h).2.obj "ctimeSecs" =
      (sysCall w lstatFlag c).buf.st_ctim.tv_sec ∧
    (Java_se_soderstrom_linux_FileStat_doStat w path lstatFlag h).2.obj "ctimeNanos" =
      (sysCall w lstatFlag c).buf.st_ctim.tv_nsec ∧
    (∀ h2 : Heap,
      (Java_se_soderstrom_linux_FileStat_doStat w path lstatFlag h2).1 = 0 ∧
      ∀ n ∈ destinationFields.map Prod.fst,
        (Java_se_soderstrom_linux_FileStat_doStat w path lstatFlag h2).2.obj n =
          (Java_se_soderstrom_linux_FileStat_doStat w path lstatFlag h).2.obj n) := by
  have hr2 : ∀ h2 : Heap,
      (Java_se_soderstrom_linux_FileStat_doStat w path lstatFlag h2).1 = 0 := by
    intro h2
    rw [doStat_of_copy w path lstatFlag h c hc, if_neg hs, runAll_ret] at hr
    rw [doStat_of_copy w path lstatFlag h2 c hc, if_neg hs, runAll_ret]
    exact hr
  obtain ⟨hdev, hino, _, hnlink, _, _, hrdev, _⟩ := hb
  obtain ⟨f1, f2, f3, f4, f5, f6, f7, f8, f9, f10, f11, f12, f13⟩ :=
    writes_copied (sysCall w lstatFlag c).buf h.obj
  rw [doStat_ok_obj w path lstatFlag h c hc hs hr]
  refine ⟨?_, ?_, ?_, ?_, f5, f6, f7, f8, f9, f10, f11, f12, f13, fun h2 => ⟨hr2 h2, ?_⟩⟩
  · rw [f1, toCLong_of_nat _ hdev]
  · rw [f2, toCLong_of_nat _ hino]
  · rw [f3, toCLong_of_nat _ hnlink]
  · rw [f4, toCLong_of_nat _ hrdev]
  · intro n hn
    rw [doStat_ok_obj w path lstatFlag h2 c hc hs (hr2 h2)]
    rw [destinationFields_names (sysCall w lstatFlag c).buf] at hn
    obtain ⟨a, ha, rfl⟩ := List.mem_map.1 hn
    rw [populated_writes _ _ a ha, populated_writes _ _ a ha]

/-- The amended claim C9 on a regular file: the nanoseconds of the modify time
are held unchanged in `mtimeNanos`. -/
theorem doStat_copied_fields_witness :
    (worldOf regularFile).getStringUTFChars "/etc/hostname" = some "/etc/hostname" ∧
    ¬ (sysCall (worldOf regularFile) 0 "/etc/hostname").ret < 0 ∧
    (Java_se_soderstrom_linux_FileStat_doStat
      (worldOf regularFile) "/etc/hostname" 0 freshHeap).1 = 0 ∧
    (sysCall (worldOf regularFile) 0 "/etc/hostname").buf.InRange ∧
    (Java_se_soderstrom_linux_FileStat_doStat
      (worldOf regularFile) "/etc/hostname" 0 freshHeap).2.obj "mtimeNanos" = 987654321 ∧
    (Java_se_soderstrom_linux_FileStat_doStat
      (worldOf regularFile) "/etc/hostname" 0 freshHeap).2.obj "inode" = 131 :=
  have t := doStat_copied_fields (worldOf regularFile) "/etc/hostname" 0 freshHeap
    "/etc/hostname" rfl (by decide) (by decide) (by decide)
  ⟨rfl, by decide, by decide, by decide, t.2.2.2.2.2.2.2.2.2.2.1.trans (by decide),
    t.2.1.trans (by decide)⟩

/-- Claim C10 as stated fails: for the user id 2^31 and the group id
4294967294 `doStat` returns 0 and the fields `uid` and `gid` hold -2^31 and
-2, not the reported ids. -/
theorem doStat_owner_not_exact :
    (sysCall (worldOf highOwnerFile) 0 "/srv/file").buf.st_uid = 2147483648 ∧
    (sysCall (worldOf highOwnerFile) 0 "/srv/file").buf.st_gid = 4294967294 ∧
    highOwnerFile.InRange ∧
    (Java_se_soderstrom_linux_FileStat_doStat
      (worldOf highOwnerFile) "/srv/file" 0 freshHeap).1 = 0 ∧
    (Java_se_soderstrom_linux_FileStat_doStat
      (worldOf highOwnerFile) "/srv/file" 0 freshHeap).2.obj "uid" = -2147483648 ∧
    (Java_se_soderstrom_linux_FileStat_doStat
      (worldOf highOwnerFile) "/srv/file" 0 freshHeap).2.obj "gid" = -2 ∧
    (Java_se_soderstrom_linux_FileStat_doStat
      (worldOf highOwnerFile) "/srv/file" 0 freshHeap).2.obj "uid" ≠
        ((sysCall (worldOf highOwnerFile) 0 "/srv/file").buf.st_uid : Int) := by
  decide

/-- Claim C10, amended: after a successful system call reporting user id `u`
and group id `g` below 2^32 and return code 0 of `doStat`, the fields `uid` and
`gid` hold the ids converted to a signed 32-bit integer: the id itself when it
is below 2^31, and the id minus 2^32 otherwise; in both cases the id is the
remainder of the field modulo 2^32. -/
theorem doStat_owner_fields (w : World) (path : String) (lstatFlag : Int) (h : Heap)
    (c : String)
    (hc : w.getStringUTFChars path = some c)
    (hs : ¬ (sysCall w lstatFlag c).ret < 0)
    (hr : (Java_se_soderstrom_linux_FileStat_doStat w path lstatFlag h).1 = 0)
    (hu : (sysCall w lstatFlag c).buf.st_uid < 2 ^ 32)
    (hg : (sysCall w lstatFlag c).buf.st_gid < 2 ^ 32) :
    (Java_se_soderstrom_linux_FileStat_doStat w path lstatFlag h).2.obj "uid" =
      (if (sysCall w lstatFlag c).buf.st_uid < 2 ^ 31
        then ((sysCall w lstatFlag c).buf.st_uid : Int)
        else ((sysCall w lstatFlag c).buf.st_uid : Int) - 2 ^ 32) ∧
    (Java_se_soderstrom_linux_FileStat_doStat w path lstatFlag h).2.obj "gid" =
      (if (sysCall w lstatFlag c).buf.st_gid < 2 ^ 31
        then ((sysCall w lstatFlag c).buf.st_gid : Int)
        else ((sysCall w lstatFlag c).buf.st_gid : Int) - 2 ^ 32) ∧
    (Java_se_soderstrom_linux_FileStat_doStat w path lstatFlag h).2.obj "uid" % 2 ^ 32 =
      ((sysCall w lstatFlag c).buf.st_uid : Int) ∧
    (Java_se_soderstrom_linux_FileStat_doStat w path lstatFlag h).2.obj "gid" % 2 ^ 32 =
      ((sysCall w lstatFlag c).buf.st_gid : Int) := by
  obtain ⟨f1, f2⟩ := writes_owner (sysCall w lstatFlag c).buf h.obj
  rw [doStat_ok_obj w path lstatFlag h c hc hs hr, f1, f2,
    toCInt_of_nat _ hu, toCInt_of_nat _ hg]
  refine ⟨rfl, rfl, ?_, ?_⟩
  · split <;> omega
  · split <;> omega

/-- The amended claim C10 at the user id 1000 and at the user id 2^31. -/
theorem doStat_owner_fields_witness :
    (worldOf highOwnerFile).getStringUTFChars "/srv/file" = some "/srv/file" ∧
    ¬ (sysCall (worldOf highOwnerFile) 0 "/srv/file").ret < 0 ∧
    (Java_se_soderstrom_linux_FileStat_doStat
      (worldOf highOwnerFile) "/srv/file" 0 freshHeap).1 = 0 ∧
    (Java_se_soderstrom_linux_FileStat_doStat
      (worldOf highOwnerFile) "/srv/file" 0 freshHeap).2.obj "uid" % 2 ^ 32 = 2147483648 ∧
    (Java_se_soderstrom_linux_FileStat_doStat
      (worldOf regularFile) "/etc/hostname" 0 freshHeap).2.obj "uid" = 1000 :=
  have t := doStat_owner_fields (worldOf highOwnerFile) "/srv/file" 0 freshHeap "/srv/file"
    rfl (by decide) (by decide) (by decide) (by decide)
  have t' := doStat_owner_fields (worldOf regularFile) "/etc/hostname" 0 freshHeap
    "/etc/hostname" rfl (by decide) (by decide) (by decide) (by decide)
  ⟨rfl, by decide, by decide, t.2.2.1.trans (by decide), t'.1.trans (by decide)⟩

end FileStat
